import Mathlib

/-!
Verification of the HttpLibs comparison harness (library_comparison/*.py)
against its natural-language specification.

The scripts are sequences of HTTP-library calls wrapped in a timing
decorator.  We embed them shallowly:

* wall-clock time is an explicit rational clock threaded through every
  operation; an operation of result type `α` is a function
  `ℚ → Except (Err × ℚ) (α × ℚ)` — on success it returns the value and the
  new clock, on a raised exception it returns the exception together with
  the clock at which it fired (real time passes on failure paths too);
* the echo server (httpbin) is a pure function from a requested path and
  the cookies sent to a `Response`;
* the filesystem touched by the upload scenario is a list of file paths.
-/

/-- Paths of the echo service used by the scenarios (spec section 6). -/
inductive HPath : Type
  | get
  | post
  | headers
  | statusCode (c : Nat)
  | redirect (n : Nat)
  | redirectTo
  | delay (n : Nat)
  | cookies
  | cookiesSet (name value : String)
  | bytes (n : Nat)
  | digestAuth
deriving DecidableEq

/-- Normalized view of an HTTP response: status code, the URL that produced
it, the redirect target (the Location header) if any, the Set-Cookie pairs
it carries, and — for `/cookies` — the `cookies` field of its JSON body. -/
structure Response : Type where
  status : Nat
  url : HPath
  location : Option HPath := none
  setCookie : List (String × String) := []
  cookies : List (String × String) := []
deriving DecidableEq

/-- Exceptions a request can raise: a timeout, a connection error, or —
for urllib.request — an HTTPError carrying the response it wraps. -/
inductive Err : Type
  | timeout
  | connError
  | httpError (r : Response)
deriving DecidableEq

/-- A timed fallible operation: given the current clock, either a result
with the clock after completion, or an exception with the clock at which
it was raised. -/
abbrev TimedOp (α : Type) : Type := ℚ → Except (Err × ℚ) (α × ℚ)

/-- Shallow embedding of the `measure_time` decorator (requests_lib.py
lines 13-21, identical in the other five scripts, and of
`measure_time_async` in aiohttp_lib.py): record the start clock, run the
operation, and pair its result with the elapsed time.  The Python wrapper
has no try/finally, so a raised exception propagates unchanged. -/
def measure_time {α : Type} (func : TimedOp α) : TimedOp (α × ℚ) := fun start_time =>
  match func start_time with
  | Except.ok (result, now) => Except.ok ((result, now - start_time), now)
  | Except.error e => Except.error e

/-- A concrete operation that completes at once (used as a witness). -/
def okOp : TimedOp Unit := fun _ => Except.ok ((), 2)

/-- A concrete operation that raises a timeout 3 seconds in (used as a
counterexample input for the failure path of `measure_time`). -/
def raisingOp : TimedOp Unit := fun t => Except.error (Err.timeout, t + 3)

/-- C2 (counterexample): the claim says that when the wrapped operation
fails by raising, `measure_time` still yields an elapsed measurement.  It
does not: on `raisingOp`, which raises a timeout 3 seconds in, the wrapper
returns the propagated exception and no `(result, elapsed)` pair at all. -/
theorem measure_time_no_elapsed_on_raise :
    measure_time raisingOp 0 = Except.error (Err.timeout, 3)
    ∧ (measure_time raisingOp 0).isOk = false := by
  constructor
  · show Except.error (Err.timeout, (0:ℚ) + 3) = Except.error (Err.timeout, 3)
    norm_num
  · rfl

/-- C2 (amended): on the success path `measure_time` returns exactly the
pair of the operation's own value and the elapsed time `now - start`
(nonnegative whenever the clock is monotone); on the failure path the
exception propagates unchanged and the wrapper produces no elapsed
measurement of its own. -/
theorem measure_time_behavior {α : Type} (f : TimedOp α) (t0 : ℚ) :
    (∀ r t1, f t0 = Except.ok (r, t1) →
        measure_time f t0 = Except.ok ((r, t1 - t0), t1) ∧ (t0 ≤ t1 → 0 ≤ t1 - t0))
    ∧ (∀ e, f t0 = Except.error e → measure_time f t0 = Except.error e) := by
  constructor
  · intro r t1 hok
    constructor
    · simp [measure_time, hok]
    · intro hle
      simpa using sub_nonneg.mpr hle
  · intro e herr
    simp [measure_time, herr]

/-- C2 (witness): `measure_time_behavior` applied to the concrete
operation `okOp` at clock 0. -/
theorem measure_time_behavior_witness :
    measure_time okOp 0 = Except.ok (((), (2:ℚ) - 0), 2) ∧ ((0:ℚ) ≤ 2 → 0 ≤ (2:ℚ) - 0) :=
  (measure_time_behavior okOp 0).1 () 2 rfl

/-- Model of the httpbin echo service (spec section 6): the response each
path produces, given the cookies sent with the request.  `/redirect/n`
answers 302 pointing at `/redirect/(n-1)` (at `/get` for n = 1);
`/cookies/set?name=value` answers 302 towards `/cookies` with a Set-Cookie
header; `/cookies` echoes the cookies it received in its JSON body;
`/status/c` answers with status c. -/
def serve (sent : List (String × String)) : HPath → Response
  | HPath.get => { status := 200, url := HPath.get }
  | HPath.post => { status := 200, url := HPath.post }
  | HPath.headers => { status := 200, url := HPath.headers }
  | HPath.statusCode c => { status := c, url := HPath.statusCode c }
  | HPath.redirect 0 => { status := 200, url := HPath.redirect 0 }
  | HPath.redirect (n+1) =>
      { status := 302, url := HPath.redirect (n+1),
        location := some (if n = 0 then HPath.get else HPath.redirect n) }
  | HPath.redirectTo => { status := 302, url := HPath.redirectTo, location := some HPath.get }
  | HPath.delay n => { status := 200, url := HPath.delay n }
  | HPath.cookies => { status := 200, url := HPath.cookies, cookies := sent }
  | HPath.cookiesSet n v =>
      { status := 302, url := HPath.cookiesSet n v,
        location := some HPath.cookies, setCookie := [(n, v)] }
  | HPath.bytes n => { status := 200, url := HPath.bytes n }
  | HPath.digestAuth => { status := 200, url := HPath.digestAuth }

/-- A request that sends no cookies. -/
def serveGet (p : HPath) : Response := serve [] p

/-- A GET of `/delay/d` under an optional client timeout: the server takes
d seconds to answer; if a timeout T is configured and T < d the library
raises a timeout exception once T has elapsed (no partial response),
otherwise the full response arrives after d seconds. -/
def timedGetDelay (d : Nat) (timeout : Option ℚ) : TimedOp Response := fun t =>
  match timeout with
  | none => Except.ok (serveGet (HPath.delay d), t + d)
  | some T =>
      if T < (d : ℚ) then Except.error (Err.timeout, t + T)
      else Except.ok (serveGet (HPath.delay d), t + d)

/-- Scenario `delay_1_request`: GET /delay/1 with no timeout. -/
def delay_1_request : TimedOp Response := timedGetDelay 1 none

/-- Timeout configured in `delay_5_timeout_request` (3 seconds). -/
def delay5Timeout : ℚ := 3

/-- Server-side delay requested by `delay_5_timeout_request` (5 seconds). -/
def delay5ServerDelay : Nat := 5

/-- Scenario `delay_5_timeout_request` (requests_lib.py lines 165-172,
urllib3_lib.py lines 179-186, with the same shape in the other scripts):
GET /delay/5 with timeout 3; the timeout exception is caught and the
scenario returns None. -/
def delay_5_timeout_request : TimedOp (Option Response) := fun t =>
  match timedGetDelay delay5ServerDelay (some delay5Timeout) t with
  | Except.ok (r, now) => Except.ok (some r, now)
  | Except.error (Err.timeout, now) => Except.ok (none, now)
  | Except.error e => Except.error e

/-- C3: the delayed request under a tighter timeout always yields the
timeout outcome (the scenario returns none), never a response, and the
measured elapsed time equals the configured timeout, which is at least
the configured timeout and below the server delay. -/
theorem delay5_timeout_always_times_out (t0 : ℚ) :
    measure_time delay_5_timeout_request t0
      = Except.ok ((none, delay5Timeout), t0 + delay5Timeout)
    ∧ delay5Timeout ≤ delay5Timeout ∧ delay5Timeout < (delay5ServerDelay : ℚ)
    ∧ ∀ r elapsed now, measure_time delay_5_timeout_request t0
        ≠ Except.ok ((some r, elapsed), now) := by
  have hlt : delay5Timeout < ((delay5ServerDelay : Nat) : ℚ) := by
    rw [delay5Timeout, delay5ServerDelay]
    norm_num
  have hrun : delay_5_timeout_request t0 = Except.ok (none, t0 + delay5Timeout) := by
    rw [delay_5_timeout_request, timedGetDelay]
    simp [hlt]
  refine ⟨?_, le_refl _, hlt, ?_⟩
  · rw [measure_time, hrun]
    norm_num
  · intro r elapsed now h
    rw [measure_time, hrun] at h
    simp at h

/-- The behavior of requests.get on an HTTP error status (requests never
raises for a received status): the server's response is returned as-is. -/
def requestsGetStatus (c : Nat) : TimedOp Response := fun t =>
  Except.ok (serveGet (HPath.statusCode c), t + 1)

/-- Scenario `error_404_request` (requests_lib.py lines 123-127). -/
def error_404_request : TimedOp Response := requestsGetStatus 404

/-- Scenario `error_500_request` (requests_lib.py lines 129-133). -/
def error_500_request : TimedOp Response := requestsGetStatus 500

/-- Scenario `error_429_request` (requests_lib.py lines 135-139). -/
def error_429_request : TimedOp Response := requestsGetStatus 429

/-- The behavior of urllib.request.urlopen on `/status/c`: a status
outside 2xx/3xx makes urlopen raise HTTPError carrying the response. -/
def urlopenStatus (c : Nat) : TimedOp Response := fun t =>
  let r := serveGet (HPath.statusCode c)
  if 200 ≤ r.status ∧ r.status < 400 then Except.ok (r, t + 1)
  else Except.error (Err.httpError r, t + 1)

/-- Scenario `error_404_request` of urllib_request_lib.py (lines 152-159):
urlopen raises HTTPError for 404; the scenario catches it and returns the
HTTPError object, which carries the status and body of the response. -/
def urllib_error_404_request : TimedOp Response := fun t =>
  match urlopenStatus 404 t with
  | Except.ok (r, now) => Except.ok (r, now)
  | Except.error (Err.httpError e, now) => Except.ok (e, now)
  | Except.error e => Except.error e

/-- C4: requesting an error status yields a normal result carrying that
status, not a raised failure: this holds for every status in the requests
embedding, and in particular for 404, 500 and 429, and for the urllib
scenario (which converts the raised HTTPError back into a result). -/
theorem error_status_returned_not_raised (t0 : ℚ) :
    (∃ r, error_404_request t0 = Except.ok (r, t0 + 1) ∧ r.status = 404)
    ∧ (∃ r, error_500_request t0 = Except.ok (r, t0 + 1) ∧ r.status = 500)
    ∧ (∃ r, error_429_request t0 = Except.ok (r, t0 + 1) ∧ r.status = 429)
    ∧ (∃ r, urllib_error_404_request t0 = Except.ok (r, t0 + 1) ∧ r.status = 404)
    ∧ ∀ c, ∃ r, requestsGetStatus c t0 = Except.ok (r, t0 + 1) ∧ r.status = c := by
  refine ⟨⟨_, rfl, rfl⟩, ⟨_, rfl, rfl⟩, ⟨_, rfl, rfl⟩, ?_, fun c => ⟨_, rfl, rfl⟩⟩
  refine ⟨serveGet (HPath.statusCode 404), ?_, rfl⟩
  rw [urllib_error_404_request, urlopenStatus]
  norm_num [serveGet, serve]

/-- A GET issued with redirect following disabled (requests
`allow_redirects=False`, urllib3 `redirect=False`, aiohttp
`allow_redirects=False`): the raw server answer for the requested path is
returned, nothing is followed. -/
def getNoFollow (p : HPath) : TimedOp Response := fun t =>
  Except.ok (serveGet p, t + 1)

/-- Scenario `no_redirect_request` (requests_lib.py lines 153-157):
GET /redirect/1 with allow_redirects=False. -/
def no_redirect_request : TimedOp Response := getNoFollow (HPath.redirect 1)

/-- Scenario `no_redirect_request` of urllib3_lib.py (lines 167-171):
GET /redirect/1 with redirect=False. -/
def urllib3_no_redirect_request : TimedOp Response := getNoFollow (HPath.redirect 1)

/-- urlopen through an opener whose HTTPRedirectHandler has been removed
(urllib_request_lib.py lines 194-200): the 3xx answer is not followed, and
the error processor raises HTTPError carrying the raw response. -/
def urlopenNoRedirectHandler (p : HPath) : TimedOp Response := fun t =>
  let r := serveGet p
  if 200 ≤ r.status ∧ r.status < 300 then Except.ok (r, t + 1)
  else Except.error (Err.httpError r, t + 1)

/-- Scenario `no_redirect_request` of urllib_request_lib.py (lines
191-206): opener without redirect handler on /redirect/1; the raised
HTTPError is caught and returned as the scenario's result. -/
def urllib_no_redirect_request : TimedOp Response := fun t =>
  match urlopenNoRedirectHandler (HPath.redirect 1) t with
  | Except.ok (r, now) => Except.ok (r, now)
  | Except.error (Err.httpError e, now) => Except.ok (e, now)
  | Except.error e => Except.error e

/-- C5: in all three embedded variants the no-follow request against
/redirect/1 returns the raw 3xx response: its status is in the 3xx range,
its URL is the originally requested /redirect/1 — not the /get target the
Location header points at. -/
theorem no_redirect_returns_raw_3xx (t0 : ℚ) :
    (∃ r, no_redirect_request t0 = Except.ok (r, t0 + 1)
        ∧ 300 ≤ r.status ∧ r.status < 400 ∧ r.url = HPath.redirect 1
        ∧ r.location = some HPath.get ∧ r.url ≠ HPath.get)
    ∧ (∃ r, urllib3_no_redirect_request t0 = Except.ok (r, t0 + 1)
        ∧ 300 ≤ r.status ∧ r.status < 400 ∧ r.url = HPath.redirect 1)
    ∧ (∃ r, urllib_no_redirect_request t0 = Except.ok (r, t0 + 1)
        ∧ 300 ≤ r.status ∧ r.status < 400 ∧ r.url = HPath.redirect 1) := by
  have hserve : serveGet (HPath.redirect 1)
      = { status := 302, url := HPath.redirect 1, location := some HPath.get } := by
    rw [serveGet, serve]
    norm_num
  refine ⟨⟨_, rfl, ?_⟩, ⟨_, rfl, ?_⟩, ?_⟩
  · rw [hserve]
    refine ⟨by norm_num, by norm_num, rfl, rfl, by decide⟩
  · rw [hserve]
    exact ⟨by norm_num, by norm_num, rfl⟩
  · refine ⟨serveGet (HPath.redirect 1), ?_, ?_⟩
    · rw [urllib_no_redirect_request, urlopenNoRedirectHandler, hserve]
      norm_num
    · rw [hserve]
      exact ⟨by norm_num, by norm_num, rfl⟩

/-- Scenario `get_request` of urllib3_lib.py (lines 29-33): a plain GET
of /get through the pool manager. -/
def urllib3_get_request : TimedOp Response := fun t =>
  Except.ok (serveGet HPath.get, t + 1)

/-- Scenario `digest_auth_request` of urllib3_lib.py (lines 116-121):
urllib3 has no native digest support, and the code performs a plain GET
of /get instead — no digest endpoint is contacted and no unsupported
marker is attached to the outcome. -/
def urllib3_digest_auth_request : TimedOp Response := fun t =>
  Except.ok (serveGet HPath.get, t + 1)

/-- Scenario `digest_auth_request` of urllib_request_lib.py (lines
124-129): likewise a plain urlopen of /get. -/
def urllib_digest_auth_request : TimedOp Response := fun t =>
  Except.ok (serveGet HPath.get, t + 1)

/-- C6 (evaluation at the failing input): for the transports without
native digest support the digest-auth scenario's outcome is
indistinguishable from the plain GET scenario's — an ordinary 200 success
whose URL is /get, not the digest endpoint; no unsupported label exists
anywhere in the outcome, contradicting the claim that the outcome is
explicitly marked unsupported. -/
theorem digest_auth_silent_fallback (t0 : ℚ) :
    urllib3_digest_auth_request t0 = urllib3_get_request t0
    ∧ urllib_digest_auth_request t0 = urllib3_get_request t0
    ∧ (∃ r, urllib3_digest_auth_request t0 = Except.ok (r, t0 + 1)
        ∧ r.status = 200 ∧ r.url = HPath.get ∧ r.url ≠ HPath.digestAuth) := by
  refine ⟨rfl, rfl, ⟨serveGet HPath.get, rfl, ?_, ?_, ?_⟩⟩
  · rfl
  · rfl
  · decide

/-- Key suffix the summary loop of `run_all_tests` filters on. -/
def timeSuffix : String := "_time"

/-- Dict key used by the embedded category results. -/
def getTimeKey : String := "get_time"

/-- Key for the 1-second-delay scenario's elapsed time. -/
def delay1TimeKey : String := "delay1_time"

/-- Key for the timeout scenario's elapsed time. -/
def timeoutTimeKey : String := "timeout_time"

/-- Category name used in the aggregated results. -/
def basicKey : String := "basic"

/-- Category name used in the aggregated results. -/
def authKey : String := "auth"

/-- Category name used in the aggregated results. -/
def cookiesKey : String := "cookies"

/-- Category name used in the aggregated results. -/
def timeoutsKey : String := "timeouts"

/-- Python's `k.endswith(suffix)`, modelled on the underlying character
lists. -/
def pyEndsWith (s suffix : String) : Bool := suffix.data.isSuffixOf s.data

/-- The elapsed values a category result contributes to the summary
(requests_lib.py line 599): every value whose key ends in `_time`,
regardless of whether the scenario that produced it succeeded. -/
def summaryTimes (results : List (String × ℚ)) : List ℚ :=
  (results.filter (fun kv => pyEndsWith kv.1 timeSuffix)).map Prod.snd

/-- The per-category summary of `run_all_tests` (requests_lib.py lines
596-602, urllib_request_lib.py lines 554-560): for each stored category,
the average of all its `_time` values (categories with no `_time` entries
are skipped). -/
def summaryLines (allResults : List (String × List (String × ℚ))) : List (String × ℚ) :=
  allResults.filterMap (fun nr =>
    let times := summaryTimes nr.2
    if times.length = 0 then none
    else some (nr.1, times.sum / (times.length : ℚ)))

/-- The try-block of `run_all_tests` (requests_lib.py lines 577-594,
urllib_request_lib.py lines 537-552): the category functions run in
order, each storing its result dict under its name; all of them sit in a
single try/except, so the first category that raises ends the loop — the
exception is caught once, and every category after it is skipped. -/
def collectUntilError {α : Type} : List (String × Except Err α) → List (String × α)
  | [] => []
  | kv :: rest =>
      match kv.2 with
      | Except.ok r => (kv.1, r) :: collectUntilError rest
      | Except.error _ => []

/-- Embedding of `run_all_tests` (requests_lib.py lines 571-604,
urllib_request_lib.py lines 531-562), parameterized by the catalogue of
named category outcomes: collect results until the first raising
category, then print the per-category averages over what was collected. -/
def run_all_tests (catalogue : List (String × Except Err (List (String × ℚ)))) :
    List (String × List (String × ℚ)) × List (String × ℚ) :=
  let allResults := collectUntilError catalogue
  (allResults, summaryLines allResults)

/-- A concrete catalogue prefix: one successful category. -/
def exPre : List (String × Except Err (List (String × ℚ))) :=
  [(basicKey, Except.ok [(getTimeKey, 1)])]

/-- A concrete catalogue tail: one category that would succeed. -/
def exPost : List (String × Except Err (List (String × ℚ))) :=
  [(cookiesKey, Except.ok [(getTimeKey, 2)])]

/-- A concrete catalogue whose middle category raises while the last one
would succeed. -/
def exCatalogue : List (String × Except Err (List (String × ℚ))) :=
  exPre ++ (authKey, Except.error Err.connError) :: exPost

/-- C1 (counterexample): in `exCatalogue` the `cookies` category comes
after the failing `auth` category and would succeed, yet `run_all_tests`
neither executes it nor includes it in the final summary — the remaining
scenarios are skipped, not continued. -/
theorem run_all_tests_skips_after_failure :
    run_all_tests exCatalogue = ([(basicKey, [(getTimeKey, 1)])], [(basicKey, 1)])
    ∧ exCatalogue.map Prod.fst = [basicKey, authKey, cookiesKey]
    ∧ ((run_all_tests exCatalogue).1.map Prod.fst).contains cookiesKey = false := by
  refine ⟨?_, by decide, by decide⟩
  have h1 : collectUntilError exCatalogue = [(basicKey, [(getTimeKey, (1:ℚ))])] := rfl
  have h2 : summaryTimes [(getTimeKey, (1:ℚ))] = [1] := rfl
  show (collectUntilError exCatalogue, summaryLines (collectUntilError exCatalogue))
      = ([(basicKey, [(getTimeKey, 1)])], [(basicKey, 1)])
  rw [h1, summaryLines]
  simp [h2]

/-- C1 (amended): when a category raises, `run_all_tests` stops executing
the catalogue at that category; it still produces the final summary, but
over exactly the outcomes collected before the failure.  When no category
raises, every category appears in the collected results. -/
theorem run_all_tests_stops_at_first_failure
    (pre post : List (String × Except Err (List (String × ℚ))))
    (n : String) (e : Err)
    (h : ∀ kv ∈ pre, Except.isOk kv.2 = true) :
    collectUntilError (pre ++ (n, Except.error e) :: post) = collectUntilError pre
    ∧ run_all_tests (pre ++ (n, Except.error e) :: post)
      = (collectUntilError pre, summaryLines (collectUntilError pre))
    ∧ ∀ catalogue : List (String × Except Err (List (String × ℚ))),
        (∀ kv ∈ catalogue, Except.isOk kv.2 = true) →
        (collectUntilError catalogue).map Prod.fst = catalogue.map Prod.fst := by
  have hall : ∀ (catalogue : List (String × Except Err (List (String × ℚ)))),
      (∀ kv ∈ catalogue, Except.isOk kv.2 = true) →
      (collectUntilError catalogue).map Prod.fst = catalogue.map Prod.fst := by
    intro catalogue
    induction catalogue with
    | nil => intro _; rfl
    | cons kv rest ih =>
        intro hc
        have hk := hc kv (List.mem_cons_self kv rest)
        match hkv : kv.2 with
        | Except.ok r =>
            simp only [collectUntilError, hkv, List.map_cons]
            exact congrArg _ (ih (fun x hx => hc x (List.mem_cons_of_mem kv hx)))
        | Except.error err =>
            rw [hkv] at hk
            simp [Except.isOk, Except.toBool] at hk
  have key : collectUntilError (pre ++ (n, Except.error e) :: post)
      = collectUntilError pre := by
    induction pre with
    | nil => rfl
    | cons kv rest ih =>
        have hk := h kv (List.mem_cons_self kv rest)
        match hkv : kv.2 with
        | Except.ok r =>
            simp only [List.cons_append, collectUntilError, hkv]
            exact congrArg _ (ih (fun x hx => h x (List.mem_cons_of_mem kv hx)))
        | Except.error err =>
            rw [hkv] at hk
            simp [Except.isOk, Except.toBool] at hk
  refine ⟨key, ?_, hall⟩
  rw [run_all_tests, key]

/-- C1 (witness): the amended theorem applied to the concrete catalogue
`exCatalogue`, split around its failing `auth` entry. -/
theorem run_all_tests_stops_witness :
    collectUntilError (exPre ++ (authKey, Except.error Err.connError) :: exPost)
      = collectUntilError exPre
    ∧ run_all_tests (exPre ++ (authKey, Except.error Err.connError) :: exPost)
      = (collectUntilError exPre, summaryLines (collectUntilError exPre)) := by
  have h := run_all_tests_stops_at_first_failure exPre exPost authKey Err.connError
    (by decide)
  exact ⟨h.1, h.2.1⟩

/-- Embedding of `test_timeouts` (requests_lib.py lines 436-452, the same
shape in urllib_request_lib.py lines 441-457): run the 1-second-delay
scenario and the 5-second-delay-with-3-second-timeout scenario, and
return the dict with both elapsed times.  The `timeout_time` entry is
stored unconditionally — also when the timeout scenario produced no
response (returned None). -/
def test_timeouts : TimedOp (List (String × ℚ)) := fun t =>
  match measure_time delay_1_request t with
  | Except.error e => Except.error e
  | Except.ok ((_, delay1_time), t1) =>
      match measure_time delay_5_timeout_request t1 with
      | Except.error e => Except.error e
      | Except.ok ((_, timeout_time), t2) =>
          Except.ok ([(delay1TimeKey, delay1_time), (timeoutTimeKey, timeout_time)], t2)

/-- Evaluation of the timeouts category at clock t0: the delay-1 scenario
takes 1 second, the timeout scenario fails at 3 seconds, and both times
land in the dict. -/
theorem test_timeouts_eval (t0 : ℚ) :
    test_timeouts t0
      = Except.ok ([(delay1TimeKey, 1), (timeoutTimeKey, 3)], t0 + 4)
    ∧ delay_5_timeout_request (t0 + 1) = Except.ok (none, t0 + 1 + 3) := by
  have hd1 : delay_1_request t0 = Except.ok (serveGet (HPath.delay 1), t0 + 1) := by
    rw [delay_1_request, timedGetDelay]
    norm_num
  have hlt : delay5Timeout < ((delay5ServerDelay : Nat) : ℚ) := by
    rw [delay5Timeout, delay5ServerDelay]
    norm_num
  have hd5 : delay_5_timeout_request (t0 + 1) = Except.ok (none, t0 + 1 + 3) := by
    rw [delay_5_timeout_request, timedGetDelay]
    simp only [hlt, if_pos]
    rw [delay5Timeout]
  refine ⟨?_, hd5⟩
  simp only [test_timeouts, measure_time, hd1, hd5]
  norm_num
  ring

/-- C7 (counterexample): at clock 0 the timeout scenario fails (returns
none) after 3 seconds, yet the summary over the timeouts category
averages both `_time` entries — (1 + 3) / 2 = 2 — instead of the average
over completed scenarios only, which would be 1.  The failed scenario's
elapsed time is not excluded. -/
theorem summary_average_counts_failed_scenario :
    test_timeouts 0 = Except.ok ([(delay1TimeKey, 1), (timeoutTimeKey, 3)], 4)
    ∧ delay_5_timeout_request 1 = Except.ok (none, 4)
    ∧ summaryLines [(timeoutsKey, [(delay1TimeKey, 1), (timeoutTimeKey, 3)])]
        = [(timeoutsKey, 2)]
    ∧ (2:ℚ) ≠ 1 := by
  have h := test_timeouts_eval 0
  have hsum : summaryTimes [(delay1TimeKey, (1:ℚ)), (timeoutTimeKey, 3)] = [1, 3] := rfl
  refine ⟨?_, ?_, ?_, by norm_num⟩
  · have h1 := h.1
    norm_num at h1
    exact h1
  · have h2 := h.2
    norm_num at h2
    exact h2
  · rw [summaryLines]
    simp [hsum]
    norm_num

/-- C7 (amended): the per-category summary averages every `_time` entry
of the category's dict, including the elapsed times of scenarios whose
outcome was a failure: the timeouts category stores `timeout_time` even
though the timeout scenario returned none, and the reported average is
(1 + 3) / 2 over both entries. -/
theorem summary_average_includes_failures (t0 : ℚ) :
    test_timeouts t0
      = Except.ok ([(delay1TimeKey, 1), (timeoutTimeKey, delay5Timeout)], t0 + 4)
    ∧ delay_5_timeout_request (t0 + 1) = Except.ok (none, t0 + 1 + delay5Timeout)
    ∧ summaryLines [(timeoutsKey, [(delay1TimeKey, 1), (timeoutTimeKey, delay5Timeout)])]
        = [(timeoutsKey, (1 + delay5Timeout) / 2)] := by
  have h := test_timeouts_eval t0
  have hsum : summaryTimes [(delay1TimeKey, (1:ℚ)), (timeoutTimeKey, delay5Timeout)]
      = [1, delay5Timeout] := rfl
  refine ⟨by rw [delay5Timeout]; exact h.1, by rw [delay5Timeout]; exact h.2, ?_⟩
  rw [summaryLines]
  simp [hsum]

/-- Splitting a byte stream into fixed-size chunks, the way requests'
`iter_content(chunk_size)`, urllib3's `response.stream(n)` and aiohttp's
`iter_chunked(n)` deliver a body: successive pieces of at most `size`
bytes until the stream is exhausted (empty for chunk size 0, which the
scripts never use). -/
def chunksOf {α : Type} (size : Nat) (l : List α) : List (List α) :=
  if h : l.isEmpty ∨ size = 0 then []
  else l.take size :: chunksOf size (l.drop size)
termination_by l.length
decreasing_by
  simp only [List.isEmpty_iff, not_or] at h
  have hpos : 0 < l.length := List.length_pos.mpr h.1
  simp only [List.length_drop]
  omega

/-- The chunks of a stream carry every byte exactly once: their lengths
sum to the length of the streamed body. -/
theorem chunksOf_length_sum {α : Type} (size : Nat) (hs : 0 < size) (l : List α) :
    ((chunksOf size l).map List.length).sum = l.length := by
  have H : ∀ n (l : List α), l.length ≤ n →
      ((chunksOf size l).map List.length).sum = l.length := by
    intro n
    induction n with
    | zero =>
        intro l hl
        have hnil : l = [] := List.eq_nil_of_length_eq_zero (Nat.le_zero.mp hl)
        subst hnil
        rw [chunksOf]
        simp
    | succ n ih =>
        intro l hl
        rw [chunksOf]
        by_cases hc : l.isEmpty ∨ size = 0
        · rw [dif_pos hc]
          rcases hc with hc | hc
          · rw [List.isEmpty_iff] at hc
            simp [hc]
          · omega
        · rw [dif_neg hc]
          simp only [not_or, List.isEmpty_iff] at hc
          have hpos : 0 < l.length := List.length_pos.mpr hc.1
          have hdrop : (l.drop size).length ≤ n := by
            simp only [List.length_drop]
            omega
          simp only [List.map_cons, List.sum_cons, ih (l.drop size) hdrop,
            List.length_take, List.length_drop]
          omega
  exact H l.length l le_rfl

/-- Chunk size used by `stream_bytes_request` (256 bytes). -/
def streamChunkSize : Nat := 256

/-- Byte count requested from /bytes by `stream_bytes_request`. -/
def bytesRequested : Nat := 1024

/-- Scenario `stream_bytes_request` (requests_lib.py lines 184-192;
urllib3_lib.py lines 199-208 and aiohttp_lib.py lines 240-249 do the same
through their chunk readers): GET /bytes/1024, read the body in 256-byte
chunks, and return the response together with the summed chunk lengths.
`body` is the byte sequence the server streams back. -/
def stream_bytes_request (body : List Nat) : TimedOp (Response × Nat) := fun t =>
  let chunks := chunksOf streamChunkSize body
  let total_bytes := (chunks.map List.length).sum
  Except.ok ((serveGet (HPath.bytes bytesRequested), total_bytes), t + 1)

/-- C8: when the server streams a 1024-byte body, reading it in 256-byte
chunks yields a finite chunk list whose lengths sum to exactly 1024, and
the scenario returns that total. -/
theorem stream_bytes_total_is_1024 (body : List Nat) (hb : body.length = 1024) (t0 : ℚ) :
    stream_bytes_request body t0
      = Except.ok ((serveGet (HPath.bytes bytesRequested), 1024), t0 + 1)
    ∧ ((chunksOf streamChunkSize body).map List.length).sum = 1024 := by
  have hs : 0 < streamChunkSize := by
    rw [streamChunkSize]
    norm_num
  have hsum := chunksOf_length_sum streamChunkSize hs body
  rw [hb] at hsum
  constructor
  · simp only [stream_bytes_request]
    rw [hsum]
  · exact hsum

/-- C8 (witness): the theorem applied to a concrete 1024-byte body. -/
theorem stream_bytes_total_witness :
    stream_bytes_request (List.replicate 1024 0) 0
      = Except.ok ((serveGet (HPath.bytes bytesRequested), 1024), 0 + 1)
    ∧ ((chunksOf streamChunkSize (List.replicate 1024 0)).map List.length).sum = 1024 :=
  stream_bytes_total_is_1024 (List.replicate 1024 0) (by rw [List.length_replicate]) 0

/-- A client-side cookie jar, as carried by requests.Session /
aiohttp.ClientSession / http.cookiejar.CookieJar. -/
structure HttpSession : Type where
  jar : List (String × String)
deriving DecidableEq

/-- Store one received Set-Cookie pair in the jar, replacing any previous
value of the same cookie name. -/
def jarStore (jar : List (String × String)) (kv : String × String) :
    List (String × String) :=
  (jar.filter (fun e => e.1 != kv.1)) ++ [kv]

/-- Absorb all Set-Cookie pairs of a response into the jar. -/
def jarUpdate (jar received : List (String × String)) : List (String × String) :=
  received.foldl jarStore jar

/-- One session GET without following redirects: the jar's cookies are
sent, and the Set-Cookie pairs of the answer are stored in the jar. -/
def sessionFetch (s : HttpSession) (p : HPath) : Response × HttpSession :=
  let r := serve s.jar p
  (r, ⟨jarUpdate s.jar r.setCookie⟩)

/-- A session GET as requests.Session.get / aiohttp session.get perform
it: fetch, then follow a single 3xx redirect to its Location target (the
cookie scenarios only ever traverse the one-hop /cookies/set → /cookies
chain). -/
def sessionGet (s : HttpSession) (p : HPath) : Response × HttpSession :=
  let (r, s1) := sessionFetch s p
  match r.location with
  | some target =>
      if 300 ≤ r.status ∧ r.status < 400 then sessionFetch s1 target else (r, s1)
  | none => (r, s1)

/-- Cookie name set by the cookie scenarios. -/
def sessionCookieName : String := "session"

/-- Cookie value set by the cookie scenarios. -/
def abc123 : String := "abc123"

/-- The set-then-get cookie round trip: `test_cookies` of requests_lib.py
(lines 370-388: `session.get('/cookies/set?session=abc123')` followed by
`get_cookies_request(session)`) and `get_cookies_request` of
aiohttp_lib.py (lines 149-159: the same two GETs on one session), run on
a fresh session with cookie value `x`; the result is the response of the
final /cookies retrieval. -/
def cookie_roundtrip (x : String) : Response :=
  let s0 : HttpSession := ⟨[]⟩
  let (_, s1) := sessionGet s0 (HPath.cookiesSet sessionCookieName x)
  (sessionGet s1 HPath.cookies).1

/-- Scenario `get_cookies_request` of urllib3_lib.py (lines 129-135):
urllib3 has no jar, so the scenario sends an explicit
`Cookie: session=abc123` header on GET /cookies. -/
def urllib3_get_cookies_request : Response :=
  serve [(sessionCookieName, abc123)] HPath.cookies

/-- C9: the cookie set via /cookies/set?session=x round-trips — the
retrieval against /cookies on the same session answers with a cookies
field containing session = x; likewise the explicit-header variant of
urllib3 sees session = abc123 in the response body. -/
theorem cookie_roundtrip_spec (x : String) :
    (cookie_roundtrip x).cookies = [(sessionCookieName, x)]
    ∧ (sessionCookieName, x) ∈ (cookie_roundtrip x).cookies
    ∧ (sessionCookieName, abc123) ∈ urllib3_get_cookies_request.cookies
    ∧ (cookie_roundtrip x).status = 200 := by
  have h : (cookie_roundtrip x).cookies = [(sessionCookieName, x)] := rfl
  refine ⟨h, ?_, ?_, rfl⟩
  · rw [h]
    exact List.mem_singleton.mpr rfl
  · show (sessionCookieName, abc123) ∈ [(sessionCookieName, abc123)]
    exact List.mem_singleton.mpr rfl

/-- The filesystem the upload scenario touches: the list of existing
temp-file paths. -/
abbrev FileSys := List String

/-- `tempfile.NamedTemporaryFile(delete=False)`: creates the temp file. -/
def tempfileCreate (path : String) (fs : FileSys) : FileSys := path :: fs

/-- `os.unlink(path)`: removes the file. -/
def osUnlink (path : String) (fs : FileSys) : FileSys := fs.erase path

/-- Python's try/finally over a filesystem-threading action: the
finalizer runs whether the body returned or raised, and the body's result
or exception passes through unchanged. -/
def tryFinallyFS {α : Type} (body : FileSys → Except Err α × FileSys)
    (finalizer : FileSys → FileSys) (fs : FileSys) : Except Err α × FileSys :=
  let (r, fs1) := body fs
  (r, finalizer fs1)

/-- Embedding of `file_upload_request` (requests_lib.py lines 233-248,
urllib_request_lib.py lines 250-269, aiohttp_lib.py lines 302-323 — all
three share this shape): create a temp file, then POST its contents
inside a try whose finally unlinks the temp file; the POST (`upload`)
may return a response or raise. -/
def file_upload_request (upload : FileSys → Except Err Response × FileSys)
    (path : String) (fs : FileSys) : Except Err Response × FileSys :=
  tryFinallyFS upload (osUnlink path) (tempfileCreate path fs)

/-- C10: for any upload operation that does not itself touch the
filesystem, whether it returns or raises, the temp file created by the
scenario is gone afterwards: the final filesystem equals the initial one
(the fresh temp path in particular is absent), and the upload's result or
exception is passed through unchanged. -/
theorem file_upload_no_temp_leak (upload : FileSys → Except Err Response × FileSys)
    (path : String) (fs : FileSys)
    (hup : ∀ g, (upload g).2 = g) (hfresh : path ∉ fs) :
    (file_upload_request upload path fs).2 = fs
    ∧ path ∉ (file_upload_request upload path fs).2
    ∧ (file_upload_request upload path fs).1 = (upload (tempfileCreate path fs)).1 := by
  have key : (file_upload_request upload path fs).2 = fs := by
    show osUnlink path (upload (tempfileCreate path fs)).2 = fs
    rw [hup, tempfileCreate, osUnlink, List.erase_cons_head]
  refine ⟨key, ?_, rfl⟩
  rw [key]
  exact hfresh

/-- An upload that raises a connection error (and leaves the filesystem
alone), exercising the failure path of the try/finally. -/
def failingUpload : FileSys → Except Err Response × FileSys :=
  fun g => (Except.error Err.connError, g)

/-- A concrete temp-file path. -/
def tempPath : String := "upload_demo.txt"

/-- C10 (witness): the theorem applied to the failing upload on an empty
filesystem — the temp file does not survive the raised exception. -/
theorem file_upload_no_temp_leak_witness :
    (file_upload_request failingUpload tempPath []).2 = []
    ∧ tempPath ∉ (file_upload_request failingUpload tempPath []).2
    ∧ (file_upload_request failingUpload tempPath []).1
        = (failingUpload (tempfileCreate tempPath [])).1 :=
  file_upload_no_temp_leak failingUpload tempPath [] (fun _ => rfl)
    (List.not_mem_nil tempPath)
